import Mathlib

/-!
Verification of the `Hint` widget (`src/packages/hint/hint.ts`).

The `Hint` class owns an ordered list of hint items, a merged options
record, three optional user callbacks, and an optional debounced
auto-refresh listener.  Its methods mutate this state and return the
instance itself (`return this`).  Collaborators that live outside the
single source file (the options merge utility, the DOM container
resolver, the DOM event wrapper, the render/hide/show/remove helpers,
`isFunction` and `debounce`) are modelled from the specification text;
each such definition carries a doc comment starting with
`Modelled from the spec:`.

JavaScript values that may be `undefined` are embedded as `Option`;
machine integers do not occur (all numbers here are small indices and
intervals, embedded as `Nat`/`Int`).
-/

/-- Modelled from the spec: an opaque DOM element reference (the spec treats
DOM nodes as opaque collaborators); identified by a numeric id. -/
structure HTMLElement where
  id : Nat
deriving DecidableEq, Repr

/-- Modelled from the spec: a hint item is "a single on-page marker/tooltip
record with a step index, target element reference, and display content"
(glossary); the concrete record type lives in `hintItem.ts`, outside src/. -/
structure HintItem where
  targetSelector : String
  displayText : String
  position : String
  step : Nat
deriving DecidableEq, Repr

/-- Modelled from the spec: a JavaScript runtime value as far as the widget
inspects one — the `onX` registrars only ask whether it is a function. -/
inductive JSValue where
  | function (fnId : Nat)
  | str (s : String)
  | num (n : Int)
  | boolean (b : Bool)
  | undefinedV
  | nullV
deriving DecidableEq, Repr

/-- Modelled from the spec: `isFunction` (`src/util/isFunction.ts`, not under
src/) tests whether a JavaScript value is a function. -/
def isFunction : JSValue → Bool
  | .function _ => true
  | _ => false

/-- The hint options record (`hint/option.ts`, not under src/).  Every field
is `Option`-valued: `none` embeds a key that is absent/`undefined` on the
JavaScript object.  Only the keys the methods in `hint.ts` read are kept. -/
structure HintOptions where
  isActive : Option Bool
  hintAutoRefreshInterval : Option Int
  hintPosition : Option String
deriving DecidableEq, Repr

/-- Modelled from the spec: `getDefaultHintOptions` (`hint/option.ts`, not
under src/) returns a record with every key defined. -/
def getDefaultHintOptions : HintOptions :=
  { isActive := some true
    hintAutoRefreshInterval := some 10
    hintPosition := some "top-middle" }

/-- An options record with no key defined: the value of the uninitialized
`_options` field (`undefined`) seen as a merge base. -/
def emptyHintOptions : HintOptions :=
  { isActive := none, hintAutoRefreshInterval := none, hintPosition := none }

/-- Key-wise override: a key present on the overriding record wins, else the
base record's key survives. -/
def mergeField {α : Type} : Option α → Option α → Option α
  | some v, _ => some v
  | none, b => b

/-- Modelled from the spec: `setOptions` (`src/option.ts`, not under src/),
"an options merge utility (key/value override with defaults)": each key
present on `overrides` replaces the corresponding key of `options`. -/
def setOptions (options : HintOptions) (overrides : HintOptions) : HintOptions :=
  { isActive := mergeField overrides.isActive options.isActive
    hintAutoRefreshInterval :=
      mergeField overrides.hintAutoRefreshInterval options.hintAutoRefreshInterval
    hintPosition := mergeField overrides.hintPosition options.hintPosition }

/-- The keys of `HintOptions`, for the polymorphic `getOption` accessor. -/
inductive HintOptionKey where
  | isActive
  | hintAutoRefreshInterval
  | hintPosition
deriving DecidableEq, Repr

/-- The value read off an options key: the stored value, or `undefined` when
the key is absent. -/
inductive HintOptionValue where
  | boolVal (b : Bool)
  | intVal (n : Int)
  | strVal (s : String)
  | undefinedVal
deriving DecidableEq, Repr

/-- Reading a key of the options record (`this._options[key]`). -/
def HintOptions.lookup (o : HintOptions) : HintOptionKey → HintOptionValue
  | .isActive =>
      match o.isActive with
      | some b => .boolVal b
      | none => .undefinedVal
  | .hintAutoRefreshInterval =>
      match o.hintAutoRefreshInterval with
      | some n => .intVal n
      | none => .undefinedVal
  | .hintPosition =>
      match o.hintPosition with
      | some s => .strVal s
      | none => .undefinedVal

/-- JavaScript truthiness of an option value (`!value` in the source negates
this); `undefined` is falsy. -/
def HintOptionValue.truthy : HintOptionValue → Bool
  | .boolVal b => b
  | .intVal n => decide (n ≠ 0)
  | .strVal s => decide (s ≠ "")
  | .undefinedVal => false

/-- The JavaScript comparison `value >= 0` as applied to the auto-refresh
interval; `undefined >= 0` is false (NaN comparison). -/
def HintOptionValue.geZero : HintOptionValue → Bool
  | .intVal n => decide (0 ≤ n)
  | .boolVal b => b
  | _ => false

/-- The constructor argument: an element, or a CSS selector string. -/
inductive ElemOrSelector where
  | element (e : HTMLElement)
  | selector (s : String)
deriving DecidableEq, Repr

/-- Modelled from the spec: the page environment the widget reads — a body
element, a CSS selector resolver, and the hint items discoverable on the
page (read by `fetchHintItems`). -/
structure DOM where
  body : HTMLElement
  resolve : String → HTMLElement
  pageHints : List HintItem

/-- Modelled from the spec: `getContainerElement`
(`src/util/containerElement.ts`, not under src/), "a DOM container/selector
resolver": an element is returned as-is, a selector is resolved against the
page, and an absent argument yields the document body. -/
def getContainerElement (dom : DOM) : Option ElemOrSelector → HTMLElement
  | some (.element e) => e
  | some (.selector s) => dom.resolve s
  | none => dom.body

/-- The `callbacks` field of the `Hint` class: the three optional user
callbacks, each stored as the raw provided value. -/
structure Callbacks where
  hintsAdded : Option JSValue := none
  hintClick : Option JSValue := none
  hintClose : Option JSValue := none
deriving DecidableEq, Repr

/-- The instance state of the `Hint` class: `_hints`, `_targetElement`,
`_options`, `callbacks` and `_hintsAutoRefreshFunction` (the debounced
listener, identified by the numeric id of the allocated function object). -/
structure HintState where
  hints : List HintItem
  targetElement : HTMLElement
  options : HintOptions
  callbacks : Callbacks
  hintsAutoRefreshFunction : Option Nat
deriving DecidableEq, Repr

/-- Modelled from the spec: the externally visible page state the widget
mutates — the step ids with a rendered hint marker, the step ids whose
marker is hidden by the CSS-class toggler, the step id of an open hint
dialog, and the listener sets of the window's scroll and resize events.
`nextFnId` feeds fresh function-object identities to `debounce`. -/
structure PageState where
  renderedMarkers : List Nat := []
  hiddenMarkers : List Nat := []
  openTooltip : Option Nat := none
  scrollListeners : List Nat := []
  resizeListeners : List Nat := []
  nextFnId : Nat := 0
deriving DecidableEq, Repr

/-- Modelled from the spec: `DOMEvent.on` (`src/util/DOMEvent.ts`, not under
src/), "a generic DOM event subscription wrapper": registering a listener
that is already registered for the event is a no-op. -/
def domEventOn (listeners : List Nat) (fn : Nat) : List Nat :=
  if fn ∈ listeners then listeners else listeners ++ [fn]

/-- Modelled from the spec: `DOMEvent.off` removes the given listener from
the event's listener set. -/
def domEventOff (listeners : List Nat) (fn : Nat) : List Nat :=
  listeners.filter (fun g => g ≠ fn)

/-- What a method's `return` statement hands back: the receiver itself
(`return this`, possibly wrapped in a promise) or some other value. -/
inductive MethodRet where
  | self
  | other
deriving DecidableEq, Repr

/-- The `Hint` constructor (`hint.ts` lines 44-52): `_hints` starts empty,
`callbacks` starts empty, the target element is resolved, and the options
are `setOptions(this._options, options)` when an options argument is given —
note that `this._options` is still uninitialized (`undefined`) at that
point, embedded here as the all-`none` record — and the defaults otherwise. -/
def Hint.construct (dom : DOM) (elementOrSelector : Option ElemOrSelector)
    (options : Option HintOptions) : HintState :=
  { hints := []
    targetElement := getContainerElement dom elementOrSelector
    options :=
      match options with
      | some o => setOptions emptyHintOptions o
      | none => getDefaultHintOptions
    callbacks := {}
    hintsAutoRefreshFunction := none }

/-- `getTargetElement` (`hint.ts` lines 71-73). -/
def Hint.getTargetElement (s : HintState) : HTMLElement :=
  s.targetElement

/-- `getHints` (`hint.ts` lines 78-80). -/
def Hint.getHints (s : HintState) : List HintItem :=
  s.hints

/-- `getHint` (`hint.ts` lines 86-88): `this._hints[stepId]`, which is the
stored item in range and `undefined` out of range. -/
def Hint.getHint (s : HintState) (stepId : Nat) : Option HintItem :=
  s.hints.get? stepId

/-- `setHints` (`hint.ts` lines 94-97): `this._hints = hints; return this`. -/
def Hint.setHints (s : HintState) (hints : List HintItem) :
    HintState × MethodRet :=
  ({ s with hints := hints }, .self)

/-- `addHint` (`hint.ts` lines 103-106): `this._hints.push(hint); return
this`. -/
def Hint.addHint (s : HintState) (hint : HintItem) : HintState × MethodRet :=
  ({ s with hints := s.hints ++ [hint] }, .self)

/-- `getOption` (`hint.ts` lines 236-238): `return this._options[key]`. -/
def Hint.getOption (s : HintState) (key : HintOptionKey) : HintOptionValue :=
  s.options.lookup key

/-- `isActive` (`hint.ts` lines 269-271): `return
this.getOption("isActive")`. -/
def Hint.isActive (s : HintState) : HintOptionValue :=
  Hint.getOption s .isActive

/-- Modelled from the spec: `fetchHintItems` (`hint/hintItem.ts`, not under
src/) fetches the hint items discoverable on the page into the instance,
replacing its hint list. -/
def fetchHintItems (dom : DOM) (s : HintState) : HintState :=
  { s with hints := dom.pageHints }

/-- Modelled from the spec: `renderHints` (`hint/render.ts`, not under src/)
renders a DOM hint marker for every item of the instance's hint list. -/
def renderHints (s : HintState) (p : PageState) : PageState :=
  { p with renderedMarkers := List.range s.hints.length }

/-- `render` (`hint.ts` lines 111-119): returns the instance unchanged when
`!this.isActive()`, otherwise fetches hint items and renders them. -/
def Hint.render (dom : DOM) (s : HintState) (p : PageState) :
    HintState × PageState × MethodRet :=
  if !(Hint.isActive s).truthy then
    (s, p, .self)
  else
    let s' := fetchHintItems dom s
    (s', renderHints s' p, .self)

/-- Modelled from the spec: `hideHint` (`hint/hide.ts`, not under src/)
marks the step's rendered marker hidden via the CSS-class toggler. -/
def hideHintImpl (p : PageState) (stepId : Nat) : PageState :=
  { p with hiddenMarkers :=
      if stepId ∈ p.hiddenMarkers then p.hiddenMarkers
      else p.hiddenMarkers ++ [stepId] }

/-- Modelled from the spec: `hideHints` (`hint/hide.ts`, not under src/)
hides every rendered hint marker. -/
def hideHintsImpl (p : PageState) : PageState :=
  { p with hiddenMarkers := p.renderedMarkers }

/-- Modelled from the spec: `showHint` (`hint/show.ts`, not under src/)
removes the hidden mark from the step's marker. -/
def showHintImpl (p : PageState) (stepId : Nat) : PageState :=
  { p with hiddenMarkers := p.hiddenMarkers.filter (fun g => g ≠ stepId) }

/-- Modelled from the spec: `showHints` (`hint/show.ts`, not under src/)
shows every hint marker. -/
def showHintsImpl (p : PageState) : PageState :=
  { p with hiddenMarkers := [] }

/-- Modelled from the spec: `removeHints` (`hint/remove.ts`, not under src/)
removes every rendered hint marker from the page; it does not touch the
instance's in-memory hint list. -/
def removeHintsImpl (p : PageState) : PageState :=
  { p with renderedMarkers := [], hiddenMarkers := [], openTooltip := none }

/-- Modelled from the spec: `removeHint` (`hint/remove.ts`, not under src/)
removes the step's rendered marker from the page. -/
def removeHintImpl (p : PageState) (stepId : Nat) : PageState :=
  { p with renderedMarkers := p.renderedMarkers.filter (fun g => g ≠ stepId)
           hiddenMarkers := p.hiddenMarkers.filter (fun g => g ≠ stepId) }

/-- Modelled from the spec: `showHintDialog` (`hint/tooltip.ts`, not under
src/) opens the tooltip dialog for the step when the step's item exists. -/
def showHintDialogImpl (s : HintState) (p : PageState) (stepId : Nat) :
    PageState :=
  if (s.hints.get? stepId).isSome then { p with openTooltip := some stepId }
  else p

/-- `hideHint` (`hint.ts` lines 132-135). -/
def Hint.hideHint (s : HintState) (p : PageState) (stepId : Nat) :
    HintState × PageState × MethodRet :=
  (s, hideHintImpl p stepId, .self)

/-- `hideHints` (`hint.ts` lines 140-143). -/
def Hint.hideHints (s : HintState) (p : PageState) :
    HintState × PageState × MethodRet :=
  (s, hideHintsImpl p, .self)

/-- `showHint` (`hint.ts` lines 149-152). -/
def Hint.showHint (s : HintState) (p : PageState) (stepId : Nat) :
    HintState × PageState × MethodRet :=
  (s, showHintImpl p stepId, .self)

/-- `showHints` (`hint.ts` lines 157-160). -/
def Hint.showHints (s : HintState) (p : PageState) :
    HintState × PageState × MethodRet :=
  (s, showHintsImpl p, .self)

/-- `destroy` (`hint.ts` lines 166-169): `removeHints(this); return this`. -/
def Hint.destroy (s : HintState) (p : PageState) :
    HintState × PageState × MethodRet :=
  (s, removeHintsImpl p, .self)

/-- `removeHint` (`hint.ts` lines 186-189). -/
def Hint.removeHint (s : HintState) (p : PageState) (stepId : Nat) :
    HintState × PageState × MethodRet :=
  (s, removeHintImpl p stepId, .self)

/-- `showHintDialog` (`hint.ts` lines 195-198). -/
def Hint.showHintDialog (s : HintState) (p : PageState) (stepId : Nat) :
    HintState × PageState × MethodRet :=
  (s, showHintDialogImpl s p stepId, .self)

/-- `enableHintAutoRefresh` (`hint.ts` lines 203-216): when the interval
option compares `>= 0`, a fresh debounced function is allocated
(`debounce`, modelled as drawing the next function-object id), stored in
`_hintsAutoRefreshFunction`, and registered on the window's scroll and
resize events. -/
def Hint.enableHintAutoRefresh (s : HintState) (p : PageState) :
    HintState × PageState × MethodRet :=
  if (Hint.getOption s .hintAutoRefreshInterval).geZero then
    let fn := p.nextFnId
    ({ s with hintsAutoRefreshFunction := some fn },
     { p with nextFnId := p.nextFnId + 1
              scrollListeners := domEventOn p.scrollListeners fn
              resizeListeners := domEventOn p.resizeListeners fn },
     .self)
  else
    (s, p, .self)

/-- `disableHintAutoRefresh` (`hint.ts` lines 221-230): when a refresh
function is stored, the source calls `DOMEvent.off` for the scroll event
but `DOMEvent.on` — not `.off` — for the resize event (line 224), then
clears the stored function. -/
def Hint.disableHintAutoRefresh (s : HintState) (p : PageState) :
    HintState × PageState × MethodRet :=
  match s.hintsAutoRefreshFunction with
  | some fn =>
      ({ s with hintsAutoRefreshFunction := none },
       { p with scrollListeners := domEventOff p.scrollListeners fn
                resizeListeners := domEventOn p.resizeListeners fn },
       .self)
  | none => (s, p, .self)

/-- `onHintsAdded` (`hint.ts` lines 273-280): throws before any assignment
when the argument is not a function, else stores it and returns `this`. -/
def Hint.onHintsAdded (s : HintState) (providedCallback : JSValue) :
    HintState × Except String MethodRet :=
  if !isFunction providedCallback then
    (s, .error "Provided callback for onhintsadded was not a function.")
  else
    ({ s with callbacks := { s.callbacks with hintsAdded := some providedCallback } },
     .ok .self)

/-- `onHintClick` (`hint.ts` lines 294-301). -/
def Hint.onHintClick (s : HintState) (providedCallback : JSValue) :
    HintState × Except String MethodRet :=
  if !isFunction providedCallback then
    (s, .error "Provided callback for onhintclick was not a function.")
  else
    ({ s with callbacks := { s.callbacks with hintClick := some providedCallback } },
     .ok .self)

/-- `onHintClose` (`hint.ts` lines 315-322): stores the callback when it is
a function, else throws. -/
def Hint.onHintClose (s : HintState) (providedCallback : JSValue) :
    HintState × Except String MethodRet :=
  if isFunction providedCallback then
    ({ s with callbacks := { s.callbacks with hintClose := some providedCallback } },
     .ok .self)
  else
    (s, .error "Provided callback for onhintclose was not a function.")

/-- `clone` (`hint.ts` lines 262-264): `new Hint(this._targetElement,
this._options)`. -/
def Hint.clone (dom : DOM) (s : HintState) : HintState :=
  Hint.construct dom (some (.element s.targetElement)) (some s.options)

/-- A sequence of `addHint` calls, threading the instance state. -/
def addAll (s : HintState) (hints : List HintItem) : HintState :=
  hints.foldl (fun t h => (Hint.addHint t h).1) s

/- Concrete sample environment shared by the witnesses. -/

/-- A concrete page environment. -/
def sampleDom : DOM :=
  { body := ⟨0⟩
    resolve := fun _ => ⟨1⟩
    pageHints := [⟨"#page", "page hint", "top-middle", 0⟩] }

/-- A freshly constructed instance, no options argument given. -/
def freshState : HintState :=
  Hint.construct sampleDom none none

/-- Merging a key-wise override into a base with no keys yields the
override record itself. -/
theorem mergeField_none_right {α : Type} (x : Option α) :
    mergeField x none = x := by
  cases x <;> rfl

/-- Merging over the empty (uninitialized) base returns the overriding
record unchanged. -/
theorem setOptions_empty (o : HintOptions) :
    setOptions emptyHintOptions o = o := by
  cases o
  simp [setOptions, emptyHintOptions, mergeField_none_right]

/-- C1: each of the three callback registrars throws synchronously on every
non-function value, leaving the state (in particular the registered
callbacks) unchanged, and stores every function value without throwing. -/
theorem claim_C1_callback_registrars (s : HintState) (v : JSValue) :
    (isFunction v = false →
      Hint.onHintsAdded s v =
        (s, .error "Provided callback for onhintsadded was not a function.") ∧
      Hint.onHintClick s v =
        (s, .error "Provided callback for onhintclick was not a function.") ∧
      Hint.onHintClose s v =
        (s, .error "Provided callback for onhintclose was not a function.")) ∧
    (isFunction v = true →
      Hint.onHintsAdded s v =
        ({ s with callbacks := { s.callbacks with hintsAdded := some v } },
         .ok .self) ∧
      Hint.onHintClick s v =
        ({ s with callbacks := { s.callbacks with hintClick := some v } },
         .ok .self) ∧
      Hint.onHintClose s v =
        ({ s with callbacks := { s.callbacks with hintClose := some v } },
         .ok .self)) := by
  constructor <;> intro h <;>
    simp [Hint.onHintsAdded, Hint.onHintClick, Hint.onHintClose, h]

/-- C1 witness: a string argument makes `onHintsAdded` throw with the state
untouched, and a function argument is stored by `onHintClose`. -/
theorem claim_C1_witness :
    Hint.onHintsAdded freshState (JSValue.str "x") =
      (freshState,
       .error "Provided callback for onhintsadded was not a function.") ∧
    Hint.onHintClose freshState (JSValue.function 7) =
      ({ freshState with callbacks :=
          { freshState.callbacks with hintClose := some (JSValue.function 7) } },
       .ok .self) :=
  ⟨((claim_C1_callback_registrars freshState (JSValue.str "x")).1 (by decide)).1,
   ((claim_C1_callback_registrars freshState (JSValue.function 7)).2 (by decide)).2.2⟩

/-- Auxiliary: a sequence of `addHint` calls appends the items in order. -/
theorem addAll_hints (hints : List HintItem) (s : HintState) :
    (addAll s hints).hints = s.hints ++ hints := by
  induction hints generalizing s with
  | nil => simp [addAll]
  | cons a t ih =>
      show (addAll (Hint.addHint s a).1 t).hints = _
      rw [ih]
      simp [Hint.addHint]

/-- C2: `addHint` appends the item at the end, leaving earlier items
unchanged; after a sequence of `addHint` calls the list holds the items in
insertion order, and on an instance whose list started empty `getHint i`
returns the i-th item added. -/
theorem claim_C2_addHint_append (s : HintState) (hints : List HintItem) :
    (∀ h : HintItem, (Hint.addHint s h).1.hints = s.hints ++ [h]) ∧
    (addAll s hints).hints = s.hints ++ hints ∧
    (s.hints = [] → ∀ i : Nat, ∀ hi : i < hints.length,
      Hint.getHint (addAll s hints) i = some (hints.get ⟨i, hi⟩)) := by
  refine ⟨fun h => rfl, addAll_hints hints s, fun he i hi => ?_⟩
  simp [Hint.getHint, addAll_hints, he]

/-- C2 witness: adding two items to a fresh instance yields that list, and
`getHint 1` returns the second item added. -/
theorem claim_C2_witness :
    (addAll freshState
      [⟨"#a", "first", "top-middle", 0⟩, ⟨"#b", "second", "top-middle", 1⟩]).hints =
      [⟨"#a", "first", "top-middle", 0⟩, ⟨"#b", "second", "top-middle", 1⟩] ∧
    Hint.getHint (addAll freshState
      [⟨"#a", "first", "top-middle", 0⟩, ⟨"#b", "second", "top-middle", 1⟩]) 1 =
      some ⟨"#b", "second", "top-middle", 1⟩ :=
  ⟨(claim_C2_addHint_append freshState
      [⟨"#a", "first", "top-middle", 0⟩, ⟨"#b", "second", "top-middle", 1⟩]).2.1,
   (claim_C2_addHint_append freshState
      [⟨"#a", "first", "top-middle", 0⟩, ⟨"#b", "second", "top-middle", 1⟩]).2.2
      rfl 1 (by decide)⟩

/-- C3: `setHints` replaces the whole hint list, discarding whatever was
stored before, touches nothing else, and `getHints` then returns exactly
the new list. -/
theorem claim_C3_setHints_replaces (s : HintState) (hints : List HintItem) :
    (Hint.setHints s hints).1 = { s with hints := hints } ∧
    Hint.getHints (Hint.setHints s hints).1 = hints :=
  ⟨rfl, rfl⟩

/-- C4: when the `isActive` option is `false`, `render` returns the
instance itself with the instance state and the page state both unchanged:
nothing is fetched and nothing is rendered. -/
theorem claim_C4_render_inactive (dom : DOM) (s : HintState) (p : PageState)
    (h : s.options.isActive = some false) :
    Hint.render dom s p = (s, p, .self) := by
  simp [Hint.render, Hint.isActive, Hint.getOption, HintOptions.lookup, h,
    HintOptionValue.truthy]

/-- C4 witness: `render` on a concrete inactive instance is an identity. -/
theorem claim_C4_witness :
    Hint.render sampleDom
      { freshState with options := { freshState.options with isActive := some false } }
      {} =
    ({ freshState with options := { freshState.options with isActive := some false } },
     {}, .self) :=
  claim_C4_render_inactive sampleDom
    { freshState with options := { freshState.options with isActive := some false } }
    {} rfl

/-- C5: `destroy` leaves the instance state — in particular the in-memory
hint list read by `getHints`/`getHint` — untouched and removes every
rendered hint marker from the page. -/
theorem claim_C5_destroy (s : HintState) (p : PageState) :
    (Hint.destroy s p).1 = s ∧
    (Hint.destroy s p).2.1.renderedMarkers = [] ∧
    Hint.getHints (Hint.destroy s p).1 = Hint.getHints s ∧
    (∀ i : Nat, Hint.getHint (Hint.destroy s p).1 i = Hint.getHint s i) :=
  ⟨rfl, rfl, rfl, fun _ => rfl⟩

/-- C6: `getHint` on a step id at or beyond the end of the hint list
returns `undefined` (none); being a pure read it raises nothing and
modifies nothing. -/
theorem claim_C6_getHint_out_of_range (s : HintState) (i : Nat)
    (h : s.hints.length ≤ i) :
    Hint.getHint s i = none := by
  simp [Hint.getHint]
  exact h

/-- C6 witness: the fresh instance holds no hints and `getHint 0` returns
none. -/
theorem claim_C6_witness : Hint.getHint freshState 0 = none :=
  claim_C6_getHint_out_of_range freshState 0 (by decide)

/-- C7: every listed item-mutation and lifecycle method — `addHint`,
`setHints`, `render`, `hideHint`, `hideHints`, `showHint`, `showHints`,
`destroy`, `removeHint`, `showHintDialog` — hands back the receiver itself
(`return this`, through the promise for the asynchronous ones). -/
theorem claim_C7_methods_return_self (dom : DOM) (s : HintState)
    (p : PageState) (h : HintItem) (hints : List HintItem) (i : Nat) :
    (Hint.addHint s h).2 = .self ∧
    (Hint.setHints s hints).2 = .self ∧
    (Hint.render dom s p).2.2 = .self ∧
    (Hint.hideHint s p i).2.2 = .self ∧
    (Hint.hideHints s p).2.2 = .self ∧
    (Hint.showHint s p i).2.2 = .self ∧
    (Hint.showHints s p).2.2 = .self ∧
    (Hint.destroy s p).2.2 = .self ∧
    (Hint.removeHint s p i).2.2 = .self ∧
    (Hint.showHintDialog s p i).2.2 = .self := by
  refine ⟨rfl, rfl, ?_, rfl, rfl, rfl, rfl, rfl, rfl, rfl⟩
  simp only [Hint.render]
  split <;> rfl

/-- The state of a concrete instance, carrying the default options, right
after `enableHintAutoRefresh` registered its debounced listener. -/
def c8Enabled : HintState × PageState × MethodRet :=
  Hint.enableHintAutoRefresh freshState {}

/-- The same instance after the subsequent `disableHintAutoRefresh`. -/
def c8Disabled : HintState × PageState × MethodRet :=
  Hint.disableHintAutoRefresh c8Enabled.1 c8Enabled.2.1

/-- C8 is wrong about the code: `enableHintAutoRefresh` registers the
debounced function (id 0) on both the scroll and the resize events, but
`disableHintAutoRefresh` only removes the scroll listener — line 224 of
`hint.ts` calls `DOMEvent.on`, not `DOMEvent.off`, for resize, a no-op on
an already-registered listener — so the resize listener is still registered
afterwards, although the stored refresh function is cleared. -/
theorem claim_C8_resize_listener_survives :
    c8Enabled.2.1.scrollListeners = [0] ∧
    c8Enabled.2.1.resizeListeners = [0] ∧
    c8Disabled.1.hintsAutoRefreshFunction = none ∧
    c8Disabled.2.1.scrollListeners = [] ∧
    c8Disabled.2.1.resizeListeners = [0] := by
  refine ⟨?_, ?_, ?_, ?_, ?_⟩ <;> rfl

/-- The defined keys of this record are exactly the keys the construction
below provides; the auto-refresh interval is omitted. -/
def c9Provided : HintOptions :=
  { isActive := some false, hintAutoRefreshInterval := none,
    hintPosition := none }

/-- The instance built with an explicit options argument. -/
def c9Instance : HintState :=
  Hint.construct sampleDom (some (.element ⟨5⟩)) (some c9Provided)

/-- C9 fails on the code: constructing with an explicit options argument
does not merge it over the defaults — the constructor passes the still
uninitialized `_options` field, not `getDefaultHintOptions()`, as the merge
base — so the omitted `hintAutoRefreshInterval` key reads back as
`undefined` although its default is 10, and the resulting record differs
from the defaults-merge the claim asserts. -/
theorem claim_C9_counterexample :
    c9Instance.options ≠ setOptions getDefaultHintOptions c9Provided ∧
    Hint.getOption c9Instance .hintAutoRefreshInterval = .undefinedVal ∧
    getDefaultHintOptions.lookup .hintAutoRefreshInterval = .intVal 10 := by
  refine ⟨by decide, rfl, rfl⟩

/-- C9 as amended: with an explicit options argument the resulting record
is the provided record itself (the merge base being the uninitialized
field, i.e. empty), so `getOption` on an omitted key returns `undefined`,
not the default; the defaults apply only when no options argument is
given. -/
theorem claim_C9_constructor_options (dom : DOM)
    (e : Option ElemOrSelector) (o : HintOptions) :
    (Hint.construct dom e (some o)).options = o ∧
    (o.hintAutoRefreshInterval = none →
      Hint.getOption (Hint.construct dom e (some o)) .hintAutoRefreshInterval =
        .undefinedVal) ∧
    (Hint.construct dom e none).options = getDefaultHintOptions := by
  refine ⟨setOptions_empty o, fun h => ?_, rfl⟩
  simp [Hint.getOption, Hint.construct, HintOptions.lookup, setOptions_empty, h]

/-- C9 witness: the concrete construction above carries exactly the
provided keys and reads the omitted interval back as `undefined`. -/
theorem claim_C9_witness :
    c9Instance.options = c9Provided ∧
    Hint.getOption c9Instance .hintAutoRefreshInterval = .undefinedVal :=
  ⟨(claim_C9_constructor_options sampleDom (some (.element ⟨5⟩)) c9Provided).1,
   (claim_C9_constructor_options sampleDom (some (.element ⟨5⟩)) c9Provided).2.1
     rfl⟩

/-- C10: `clone` builds a fresh instance with the same target element and
the same options record as the original, but with an empty hint list, no
registered callbacks and no auto-refresh function; the original state is
not touched (`clone` only reads it). -/
theorem claim_C10_clone (dom : DOM) (s : HintState) :
    (Hint.clone dom s).targetElement = s.targetElement ∧
    (Hint.clone dom s).options = s.options ∧
    (Hint.clone dom s).hints = [] ∧
    (Hint.clone dom s).callbacks = {} ∧
    (Hint.clone dom s).hintsAutoRefreshFunction = none :=
  ⟨rfl, setOptions_empty s.options, rfl, rfl, rfl⟩
